import Mathlib

/-!
# Model of the TTS Groq bridge session protocol (bridge.py)

Shallow embedding of the session protocol engine of bridge.py: the
ServiceWithStartup handshake, the admitted-session counter lifecycle, the
message dispatcher, the WAV-to-float transcoder and the chunked streamer,
together with theorems checking the design claims against this model.

Modelling conventions: float32 samples are modelled as exact rationals;
the external libraries (msgpack, json, the wave module, the HTTP client)
appear as oracles describing the outcome the library call would produce,
while every branch taken on those outcomes is translated from bridge.py.
-/

namespace TTSGroqBridge

/-- Outbound server messages (bridge.py lines 214, 247-250, 259): the
msgpack Ready, a JSON error object carrying a message string, and an Audio
frame carrying one pcm chunk. -/
inductive ServerMsg where
  | ready : ServerMsg
  | error (message : String) : ServerMsg
  | audio (pcm : List ℚ) : ServerMsg
deriving DecidableEq, Repr

/-- Fixed-size windowing shared by the chunked streamer (bridge.py lines
207-216, CHUNK = 1920: chunk = pcm[sent:sent+CHUNK] while sent < total)
and by the reshape of the multi-channel downmix (line 192): successive
windows of n samples in order, the final window possibly shorter. -/
def chunksOf : Nat → List α → List (List α)
  | _, [] => []
  | n, x :: xs =>
      if n = 0 then []
      else (x :: xs).take n :: chunksOf n ((x :: xs).drop n)
termination_by _ l => l.length
decreasing_by
  rename_i hn
  have h2 : ((x :: xs).drop n).length = (x :: xs).length - n := List.length_drop n _
  simp only [List.length_cons] at *
  omega

theorem chunksOf_nil (n : Nat) : chunksOf n ([] : List α) = [] := by
  simp [chunksOf]

theorem chunksOf_cons (n : Nat) (l : List α) (hn : n ≠ 0) (hl : l ≠ []) :
    chunksOf n l = l.take n :: chunksOf n (l.drop n) := by
  rcases l with _ | ⟨x, xs⟩
  · exact absurd rfl hl
  · simp [chunksOf, hn]

/-- Recursion principle following the windowing loop: to prove a property
of every sample list it is enough to prove it for the empty list and to
carry it over dropping one window. -/
theorem chunksOf_rec (n : Nat) (hn : 0 < n) (motive : List α → Prop)
    (base : motive []) (step : ∀ l : List α, l ≠ [] → motive (l.drop n) → motive l) :
    ∀ l : List α, motive l := by
  intro l
  have key : ∀ k : Nat, ∀ l : List α, l.length ≤ k → motive l := by
    intro k
    induction k with
    | zero =>
        intro l hl
        have : l = [] := List.length_eq_zero.mp (Nat.le_zero.mp hl)
        simpa [this] using base
    | succ k ih =>
        intro l hl
        by_cases hne : l = []
        · simpa [hne] using base
        · refine step l hne (ih _ ?_)
          have h1 : 0 < l.length := List.length_pos.mpr hne
          have h2 : (l.drop n).length = l.length - n := List.length_drop n l
          omega
  exact key l.length l (Nat.le_refl _)

/-- The window sizes of chunksOf sum to the input length. -/
theorem chunksOf_sizes_sum (n : Nat) (hn : 0 < n) (l : List α) :
    ((chunksOf n l).map List.length).sum = l.length := by
  refine chunksOf_rec n hn
    (fun l => ((chunksOf n l).map List.length).sum = l.length) ?_ ?_ l
  · show ((chunksOf n ([] : List α)).map List.length).sum = ([] : List α).length
    simp [chunksOf_nil]
  · intro l hne ih
    show ((chunksOf n l).map List.length).sum = l.length
    rw [chunksOf_cons n l (Nat.pos_iff_ne_zero.mp hn) hne]
    simp only [List.map_cons, List.sum_cons, List.length_take, List.length_drop]
    have hsum : ((chunksOf n (l.drop n)).map List.length).sum = (l.drop n).length := ih
    rw [hsum]
    simp only [List.length_drop]
    have : 0 < l.length := List.length_pos.mpr hne
    omega

/-- chunksOf produces the ceiling of length over window size many windows. -/
theorem chunksOf_count (n : Nat) (hn : 0 < n) (l : List α) :
    (chunksOf n l).length = (l.length + n - 1) / n := by
  refine chunksOf_rec n hn
    (fun l => (chunksOf n l).length = (l.length + n - 1) / n) ?_ ?_ l
  · show (chunksOf n ([] : List α)).length = (([] : List α).length + n - 1) / n
    rw [chunksOf_nil]
    have : (n - 1) / n = 0 := Nat.div_eq_of_lt (by omega)
    simp only [List.length_nil, List.length, Nat.zero_add]
    omega
  · intro l hne ih
    show (chunksOf n l).length = (l.length + n - 1) / n
    rw [chunksOf_cons n l (Nat.pos_iff_ne_zero.mp hn) hne]
    simp only [List.length_cons]
    have hrec : (chunksOf n (l.drop n)).length = ((l.drop n).length + n - 1) / n := ih
    rw [hrec]
    simp only [List.length_drop]
    have hL : 0 < l.length := List.length_pos.mpr hne
    rcases le_or_lt l.length n with hle | hlt
    · have e1 : l.length - n + n - 1 = n - 1 := by omega
      have e2 : (n - 1) / n = 0 := Nat.div_eq_of_lt (by omega)
      have e4 : 1 * n ≤ l.length + n - 1 := by omega
      have e5 : (l.length + n - 1) / n = 1 := by
        have := Nat.div_eq_of_lt_le e4 (by omega)
        simpa using this
      rw [e1, e2, e5]
    · have e1 : l.length - n + n - 1 = (l.length - 1 - n) + n := by omega
      have e2 : l.length + n - 1 = (l.length - 1) + n := by omega
      rw [e1, e2, Nat.add_div_right _ hn, Nat.add_div_right _ hn]
      have e3 : l.length - 1 - n + n = l.length - 1 := by omega
      have := Nat.add_div_right (l.length - 1 - n) hn
      rw [e3] at this
      omega

/-- chunksOf of a nonempty list is nonempty. -/
theorem chunksOf_ne_nil (n : Nat) (hn : n ≠ 0) (l : List α) (hl : l ≠ []) :
    chunksOf n l ≠ [] := by
  rw [chunksOf_cons n l hn hl]
  simp

/-- Every window of chunksOf except possibly the last has exactly n
samples. -/
theorem chunksOf_dropLast_sizes (n : Nat) (hn : 0 < n) (l : List α) :
    ∀ c ∈ (chunksOf n l).dropLast, c.length = n := by
  refine chunksOf_rec n hn
    (fun l => ∀ c ∈ (chunksOf n l).dropLast, c.length = n) ?_ ?_ l
  · show ∀ c ∈ (chunksOf n ([] : List α)).dropLast, c.length = n
    simp [chunksOf_nil]
  · intro l hne ih
    show ∀ c ∈ (chunksOf n l).dropLast, c.length = n
    rw [chunksOf_cons n l (Nat.pos_iff_ne_zero.mp hn) hne]
    by_cases hdrop : l.drop n = []
    · simp [hdrop, chunksOf_nil]
    · have hlen : n < l.length := by
        have h2 : (l.drop n).length = l.length - n := List.length_drop n l
        have h3 : 0 < (l.drop n).length := List.length_pos.mpr hdrop
        omega
      have hih : ∀ c ∈ (chunksOf n (l.drop n)).dropLast, c.length = n := ih
      rcases hrec : chunksOf n (l.drop n) with _ | ⟨r, rs⟩
      · exact absurd hrec (chunksOf_ne_nil n (Nat.pos_iff_ne_zero.mp hn) (l.drop n) hdrop)
      · intro c hc
        rw [List.dropLast_cons₂] at hc
        rcases List.mem_cons.mp hc with hc1 | hc2
        · rw [hc1]
          simp only [List.length_take]
          omega
        · have := hih c
          rw [hrec] at this
          exact this hc2

/-- Every window of chunksOf is nonempty and holds at most n samples. -/
theorem chunksOf_mem_sizes (n : Nat) (hn : 0 < n) (l : List α) :
    ∀ c ∈ chunksOf n l, 0 < c.length ∧ c.length ≤ n := by
  refine chunksOf_rec n hn
    (fun l => ∀ c ∈ chunksOf n l, 0 < c.length ∧ c.length ≤ n) ?_ ?_ l
  · show ∀ c ∈ chunksOf n ([] : List α), 0 < c.length ∧ c.length ≤ n
    simp [chunksOf_nil]
  · intro l hne ih
    show ∀ c ∈ chunksOf n l, 0 < c.length ∧ c.length ≤ n
    rw [chunksOf_cons n l (Nat.pos_iff_ne_zero.mp hn) hne]
    intro c hc
    rcases List.mem_cons.mp hc with hc1 | hc2
    · rw [hc1]
      have : 0 < l.length := List.length_pos.mpr hne
      simp only [List.length_take]
      omega
    · exact ih c hc2

/-- chunksOf commutes with mapping a function over the samples. -/
theorem chunksOf_map (n : Nat) (f : α → β) (l : List α) :
    chunksOf n (l.map f) = (chunksOf n l).map (List.map f) := by
  by_cases hn : n = 0
  · subst hn
    rcases l with _ | ⟨x, xs⟩
    · simp [chunksOf_nil]
    · simp [chunksOf]
  · refine chunksOf_rec n (Nat.pos_of_ne_zero hn)
      (fun l => chunksOf n (l.map f) = (chunksOf n l).map (List.map f)) ?_ ?_ l
    · show chunksOf n (([] : List α).map f) = (chunksOf n ([] : List α)).map (List.map f)
      simp [chunksOf_nil]
    · intro l hne ih
      show chunksOf n (l.map f) = (chunksOf n l).map (List.map f)
      have hmapne : l.map f ≠ [] := by
        simpa using hne
      rw [chunksOf_cons n (l.map f) hn hmapne, chunksOf_cons n l hn hne]
      simp only [List.map_cons, List.map_take, List.map_drop]
      rw [← List.map_drop, ih]

/-- Header fields and raw frames of a WAV container as read through
wave.open in wav_bytes_to_pcm_f32 (bridge.py lines 181-186): channel
count, sample width in bytes, frame rate, and the interleaved signed
16-bit samples produced by np.frombuffer at line 190. -/
structure WavData where
  nchannels : Nat
  sampwidth : Nat
  framerate : Nat
  samples : List Int
deriving DecidableEq, Repr

/-- Transcoder wav_bytes_to_pcm_f32 (bridge.py lines 179-195) on a parsed
container: cast the 16-bit samples to floats (line 190, here exact
rationals), downmix when more than one channel by the per-frame mean of
the reshape into nchannels columns (lines 191-192), then normalize by
32768.0 (line 194). The frame rate read at line 184 is returned alongside
the samples: the code performs no resampling, so the buffer stays at the
container's rate. A sample width other than 2 only logs a warning at line
189 and is decoded the same way. -/
def wav_bytes_to_pcm_f32 (w : WavData) : List ℚ × Nat :=
  let pcm : List ℚ := w.samples.map (fun s : Int => (s : ℚ))
  let mixed : List ℚ :=
    if 1 < w.nchannels then
      (chunksOf w.nchannels pcm).map (fun frame => frame.sum / (w.nchannels : ℚ))
    else pcm
  (mixed.map (fun x => x / 32768), w.framerate)

/-- Bridge state shared by all connection tasks (bridge.py lines 65-69):
the admitted-session counter active_sessions and the availability flag
is_running. The connection_count identifier and the HTTP session object
play no role in the claims and are omitted. -/
structure BridgeState where
  active_sessions : Nat
  is_running : Bool
deriving DecidableEq, Repr

/-- ServiceWithStartup handshake (bridge.py lines 285-308), run to its
single outbound message with the result of the upstream probe
test_groq_api supplied as a value: the capacity check at line 287, the
availability check at line 292, the probe check at line 298, otherwise
Ready (line 304) and the counter increment (line 307). Returns the
messages sent, the state after the handshake, and whether the connection
was admitted into the dispatch loop. -/
def handshake (maxSessions : Nat) (probeOk : Bool) (st : BridgeState) :
    List ServerMsg × BridgeState × Bool :=
  if maxSessions ≤ st.active_sessions then
    ([ServerMsg.error "Service at capacity"], st, false)
  else if st.is_running = false then
    ([ServerMsg.error "Service unavailable"], st, false)
  else if probeOk = false then
    ([ServerMsg.error "TTS API unavailable"], st, false)
  else
    ([ServerMsg.ready],
      { st with active_sessions := st.active_sessions + 1 }, true)

/-- Fields of one decoded inbound message as the dispatcher reads them:
the "type" tag obtained by data.get at bridge.py line 316 and the "text"
field when present (lines 229 and 327). Field values are modelled as
strings; text is kept as a character list so that stripping is explicit. -/
structure MsgData where
  mtype : Option String
  text : Option (List Char)
deriving DecidableEq, Repr

/-- One inbound WebSocket frame as the dispatch loop receives it
(bridge.py lines 311-334): a binary frame paired with the outcome of
msgpack.unpackb (none when unpacking raises, line 315), a textual frame
paired with the outcome of json.loads (none when parsing raises, line
326), or a frame of any other runtime type (line 332). -/
inductive Frame where
  | binary (decoded : Option MsgData)
  | jsonText (decoded : Option MsgData)
  | other
deriving DecidableEq, Repr

/-- Outcome of the upstream HTTP synthesis call as observed inside
synthesize_text (bridge.py lines 158-177): a response with its status and
body bytes, an asyncio timeout, or any other transport-level exception. -/
inductive UpstreamResult where
  | response (status : Nat) (body : List Nat)
  | timeout
  | transportError
deriving DecidableEq, Repr

/-- synthesize_text (bridge.py lines 128-177): a response with status 200
returns the body bytes (lines 163-166), any other status returns None
(lines 167-170), and a timeout or transport error returns None (lines
172-177). -/
def synthesize_text : UpstreamResult → Option (List Nat)
  | UpstreamResult.response status body => if status = 200 then some body else none
  | UpstreamResult.timeout => none
  | UpstreamResult.transportError => none

/-- Python str.strip as used at bridge.py line 229: drop whitespace from
both ends of the text. -/
def stripText (s : List Char) : List Char :=
  (((s.dropWhile Char.isWhitespace).reverse).dropWhile Char.isWhitespace).reverse

/-- stream_audio_chunks (bridge.py lines 197-219), with the wave-library
parse of the container bytes supplied as the oracle parseWav: none models
wave.open (or the numpy conversion) raising, caught at lines 199-204 by
logging and returning without sending anything. On success the float
samples are cut into CHUNK = 1920 sample windows, each sent as one Audio
message (lines 207-216). -/
def stream_audio_chunks (parseWav : List Nat → Option WavData)
    (audio_data : List Nat) : List ServerMsg :=
  match parseWav audio_data with
  | none => []
  | some w => (chunksOf 1920 (wav_bytes_to_pcm_f32 w).1).map ServerMsg.audio

/-- handle_text_message (bridge.py lines 221-243): read the "text" field
with an empty-string default and strip it (line 229); when empty, send
one "Empty text provided" error (lines 231-234); otherwise synthesize and
either stream the audio (truthy bytes, lines 239-241) or send one "TTS
synthesis failed" error (lines 242-243, also reached when a 200 response
had an empty body, which is falsy). -/
def handle_text_message (parseWav : List Nat → Option WavData)
    (upstream : UpstreamResult) (data : MsgData) : List ServerMsg :=
  let text := stripText (data.text.getD [])
  if text = [] then [ServerMsg.error "Empty text provided"]
  else
    match synthesize_text upstream with
    | some audio_data =>
        if audio_data = [] then [ServerMsg.error "TTS synthesis failed"]
        else stream_audio_chunks parseWav audio_data
    | none => [ServerMsg.error "TTS synthesis failed"]

/-- Body of the per-message try block (bridge.py lines 313-334). A decode
failure — msgpack.unpackb raising at line 315 or json.loads raising at
line 326 — is an exception escaping the body, modelled as Except.error
naming the raising call; every decoded shape is routed as in lines
316-334. The upstream outcome a synthesis inside this message would
observe is passed as a value. -/
def handle_one_message (parseWav : List Nat → Option WavData)
    (upstream : UpstreamResult) : Frame → Except String (List ServerMsg)
  | Frame.binary none => Except.error "msgpack.unpackb raised"
  | Frame.binary (some data) =>
      match data.mtype with
      | some "Text" => Except.ok (handle_text_message parseWav upstream data)
      | some "Eos" => Except.ok []
      | _ => Except.ok [ServerMsg.error "Invalid message format"]
  | Frame.jsonText none => Except.error "json.loads raised"
  | Frame.jsonText (some data) =>
      match data.text with
      | some _ => Except.ok (handle_text_message parseWav upstream data)
      | none => Except.ok [ServerMsg.error "Invalid message format"]
  | Frame.other => Except.ok [ServerMsg.error "Invalid message type"]

/-- One iteration of the dispatch loop (bridge.py lines 311-337): the try
body together with its except handler, which converts any exception
escaping the handling of this message into a single "Message processing
failed" error (lines 335-337). -/
def dispatch_message (parseWav : List Nat → Option WavData)
    (upstream : UpstreamResult) (frame : Frame) : List ServerMsg :=
  match handle_one_message parseWav upstream frame with
  | Except.ok msgs => msgs
  | Except.error _ => [ServerMsg.error "Message processing failed"]

/-- Dispatch loop over an admitted connection's inbound frames (bridge.py
line 311): frames are handled strictly in order, each paired with the
upstream outcome its synthesis call would observe, and the loop ends only
when the frame stream ends — the peer closing the socket. -/
def dispatch_loop (parseWav : List Nat → Option WavData) :
    List (Frame × UpstreamResult) → List ServerMsg
  | [] => []
  | (f, u) :: rest => dispatch_message parseWav u f ++ dispatch_loop parseWav rest

/-- Cleanup block of handle_websocket_connection (bridge.py lines
345-349): decrement active_sessions whenever it is positive. The block
runs on every exit from the try — admitted or not, normal or exceptional. -/
def finally_decrement (st : BridgeState) : BridgeState :=
  if 0 < st.active_sessions then
    { st with active_sessions := st.active_sessions - 1 }
  else st

/-- handle_websocket_connection (bridge.py lines 271-349) for one
connection run to completion in isolation: the handshake (lines 285-308),
then — only when admitted — the dispatch loop over the inbound frames,
and on every path the finally block's decrement. Returns the messages
sent on the connection and the bridge state after the handler exits. -/
def handle_websocket_connection (maxSessions : Nat) (probeOk : Bool)
    (parseWav : List Nat → Option WavData)
    (frames : List (Frame × UpstreamResult)) (st : BridgeState) :
    List ServerMsg × BridgeState :=
  let r := handshake maxSessions probeOk st
  let msgs := if r.2.2 then r.1 ++ dispatch_loop parseWav frames else r.1
  (msgs, finally_decrement r.2.1)

/-- Control points of one connection task between the await suspension
points of handle_websocket_connection: start (about to run the capacity
and availability checks, bridge.py lines 287-292), passedCheck (the
checks passed; the task is suspended in the awaited probe at line 298 or
the awaited Ready send at line 304), admitted (the counter was
incremented at line 307; the task is in the dispatch loop), rejected (a
check failed; the task is about to leave through the finally), and done
(the finally block at lines 345-349 has executed). -/
inductive TaskPC where
  | start
  | passedCheck
  | admitted
  | rejected
  | done
deriving DecidableEq, Repr

/-- Step of a single connection task, relating its control point and the
shared session counter before and after. The counter is an integer so
that the claim that it is never observed negative is meaningful. The
capacity check and the increment are separate steps because the awaits at
bridge.py lines 298 and 304 suspend the task between them, letting other
connection tasks run. -/
inductive TaskStep (maxSessions : Int) : TaskPC → Int → TaskPC → Int → Prop where
  | checkPass (n : Int) : n < maxSessions →
      TaskStep maxSessions TaskPC.start n TaskPC.passedCheck n
  | checkFail (n : Int) : maxSessions ≤ n →
      TaskStep maxSessions TaskPC.start n TaskPC.rejected n
  | probeFail (n : Int) :
      TaskStep maxSessions TaskPC.passedCheck n TaskPC.rejected n
  | probePass (n : Int) :
      TaskStep maxSessions TaskPC.passedCheck n TaskPC.admitted (n + 1)
  | finishAdmitted (n : Int) :
      TaskStep maxSessions TaskPC.admitted n TaskPC.done
        (if 0 < n then n - 1 else n)
  | finishRejected (n : Int) :
      TaskStep maxSessions TaskPC.rejected n TaskPC.done
        (if 0 < n then n - 1 else n)

/-- Interleaving semantics over the connection tasks: a system state is
the shared counter together with the control points of the tasks, and one
system step advances exactly one task. -/
inductive SysStep (maxSessions : Int) :
    Int × List TaskPC → Int × List TaskPC → Prop where
  | step (pre post : List TaskPC) (t t' : TaskPC) (n n' : Int) :
      TaskStep maxSessions t n t' n' →
      SysStep maxSessions (n, pre ++ t :: post) (n', pre ++ t' :: post)

/-- States reachable by interleaved execution of the connection tasks. -/
def Reachable (maxSessions : Int) :
    Int × List TaskPC → Int × List TaskPC → Prop :=
  Relation.ReflTransGen (SysStep maxSessions)

/-- C1: the claim says a connection that was never admitted causes no net
change to the session counter. The code violates it: with capacity 1 and
one session already active, a new connection is rejected at the capacity
check — so never admitted and the handshake leaves the counter at 1 — yet
the finally block still decrements, and the handler ends with the counter
at 0, a net change of minus one caused by a never-admitted connection. -/
theorem c1_rejected_connection_decrements_counter :
    (handshake 1 true { active_sessions := 1, is_running := true }).2.2 = false ∧
    (handshake 1 true { active_sessions := 1, is_running := true }).2.1.active_sessions = 1 ∧
    (handle_websocket_connection 1 true (fun _ => none) []
        { active_sessions := 1, is_running := true }).2.active_sessions = 0 := by
  refine ⟨rfl, rfl, rfl⟩

/-- C2: the claim says the counter never exceeds the configured capacity
under any interleaving. The code violates it: with capacity 1, two
connection tasks can both pass the capacity check while the counter is 0
— the awaited probe and Ready send suspend each task between its check
and its increment — and then both increment, so the state with counter 2
and both tasks admitted is reachable, and 2 exceeds the capacity 1. -/
theorem c2_interleaving_exceeds_capacity :
    Reachable 1 (0, [TaskPC.start, TaskPC.start])
      (2, [TaskPC.admitted, TaskPC.admitted]) ∧ ¬ ((2 : Int) ≤ 1) := by
  constructor
  · have s1 : SysStep 1 (0, [TaskPC.start, TaskPC.start])
        (0, [TaskPC.passedCheck, TaskPC.start]) :=
      SysStep.step [] [TaskPC.start] TaskPC.start TaskPC.passedCheck 0 0
        (TaskStep.checkPass 0 (by norm_num))
    have s2 : SysStep 1 (0, [TaskPC.passedCheck, TaskPC.start])
        (0, [TaskPC.passedCheck, TaskPC.passedCheck]) :=
      SysStep.step [TaskPC.passedCheck] [] TaskPC.start TaskPC.passedCheck 0 0
        (TaskStep.checkPass 0 (by norm_num))
    have s3 : SysStep 1 (0, [TaskPC.passedCheck, TaskPC.passedCheck])
        (1, [TaskPC.admitted, TaskPC.passedCheck]) :=
      SysStep.step [] [TaskPC.passedCheck] TaskPC.passedCheck TaskPC.admitted 0 1
        (TaskStep.probePass 0)
    have s4 : SysStep 1 (1, [TaskPC.admitted, TaskPC.passedCheck])
        (2, [TaskPC.admitted, TaskPC.admitted]) :=
      SysStep.step [TaskPC.admitted] [] TaskPC.passedCheck TaskPC.admitted 1 2
        (TaskStep.probePass 1)
    exact Relation.ReflTransGen.head s1 (Relation.ReflTransGen.head s2
      (Relation.ReflTransGen.head s3 (Relation.ReflTransGen.single s4)))
  · norm_num

/-- C3: the handshake runs its checks in order with short-circuiting — at
capacity it sends one "Service at capacity" error with the counter
unchanged and no admission; then the shutdown flag sends "Service
unavailable"; then a failed probe sends "TTS API unavailable" without
admitting; otherwise the counter is incremented, Ready is sent, and the
connection is admitted — and exactly one outbound message concludes the
handshake, never an Audio message. -/
theorem c3_handshake_check_order (maxSessions : Nat) (probeOk : Bool)
    (st : BridgeState) :
    (maxSessions ≤ st.active_sessions →
      handshake maxSessions probeOk st
        = ([ServerMsg.error "Service at capacity"], st, false)) ∧
    (st.active_sessions < maxSessions → st.is_running = false →
      handshake maxSessions probeOk st
        = ([ServerMsg.error "Service unavailable"], st, false)) ∧
    (st.active_sessions < maxSessions → st.is_running = true → probeOk = false →
      handshake maxSessions probeOk st
        = ([ServerMsg.error "TTS API unavailable"], st, false)) ∧
    (st.active_sessions < maxSessions → st.is_running = true → probeOk = true →
      handshake maxSessions probeOk st
        = ([ServerMsg.ready],
            { st with active_sessions := st.active_sessions + 1 }, true)) ∧
    (handshake maxSessions probeOk st).1.length = 1 ∧
    (∀ pcm, ServerMsg.audio pcm ∉ (handshake maxSessions probeOk st).1) := by
  refine ⟨?_, ?_, ?_, ?_, ?_, ?_⟩
  · intro h
    simp [handshake, h]
  · intro h hrun
    simp [handshake, Nat.not_le.mpr h, hrun]
  · intro h hrun hprobe
    simp [handshake, Nat.not_le.mpr h, hrun, hprobe]
  · intro h hrun hprobe
    simp [handshake, Nat.not_le.mpr h, hrun, hprobe]
  · unfold handshake
    split_ifs <;> rfl
  · intro pcm
    unfold handshake
    split_ifs <;> simp

/-- C3 witness: the four handshake branches at concrete inputs. -/
theorem c3_handshake_check_order_witness :
    handshake 10 true { active_sessions := 10, is_running := true }
      = ([ServerMsg.error "Service at capacity"],
          { active_sessions := 10, is_running := true }, false) ∧
    handshake 10 true { active_sessions := 3, is_running := false }
      = ([ServerMsg.error "Service unavailable"],
          { active_sessions := 3, is_running := false }, false) ∧
    handshake 10 false { active_sessions := 3, is_running := true }
      = ([ServerMsg.error "TTS API unavailable"],
          { active_sessions := 3, is_running := true }, false) ∧
    handshake 10 true { active_sessions := 3, is_running := true }
      = ([ServerMsg.ready],
          { active_sessions := 4, is_running := true }, true) :=
  ⟨(c3_handshake_check_order 10 true _).1 (by decide),
   (c3_handshake_check_order 10 true _).2.1 (by decide) rfl,
   (c3_handshake_check_order 10 false _).2.2.1 (by decide) rfl rfl,
   (c3_handshake_check_order 10 true _).2.2.2.1 (by decide) rfl rfl⟩

/-- C4 counterexample: a binary frame whose msgpack decode raises is not
classified as Unknown with an "Invalid message format" reply — the
exception reaches the per-message handler and the reply is "Message
processing failed". -/
theorem c4_decode_failure_not_invalid_format :
    dispatch_message (fun _ => none) UpstreamResult.timeout (Frame.binary none)
        = [ServerMsg.error "Message processing failed"] ∧
    ¬ dispatch_message (fun _ => none) UpstreamResult.timeout (Frame.binary none)
        = [ServerMsg.error "Invalid message format"] := by
  exact ⟨rfl, by decide⟩

/-- C4 amended: a frame that decodes but carries an unrecognized shape —
a binary message whose type tag is neither "Text" nor "Eos", or a JSON
message without a "text" field — is answered with exactly one "Invalid
message format" error; a frame that fails to decode under its path raises
inside the try block and is answered with "Message processing failed". -/
theorem c4_unknown_tag_invalid_format (parseWav : List Nat → Option WavData)
    (upstream : UpstreamResult) (data : MsgData) :
    (data.mtype ≠ some "Text" → data.mtype ≠ some "Eos" →
      dispatch_message parseWav upstream (Frame.binary (some data))
          = [ServerMsg.error "Invalid message format"]) ∧
    (data.text = none →
      dispatch_message parseWav upstream (Frame.jsonText (some data))
          = [ServerMsg.error "Invalid message format"]) ∧
    dispatch_message parseWav upstream (Frame.binary none)
        = [ServerMsg.error "Message processing failed"] ∧
    dispatch_message parseWav upstream (Frame.jsonText none)
        = [ServerMsg.error "Message processing failed"] := by
  refine ⟨?_, ?_, rfl, rfl⟩
  · intro h1 h2
    rcases hm : data.mtype with _ | s
    · simp [dispatch_message, handle_one_message, hm]
    · have hsT : s ≠ "Text" := by
        intro h
        rw [h] at hm
        exact h1 hm
      have hsE : s ≠ "Eos" := by
        intro h
        rw [h] at hm
        exact h2 hm
      simp [dispatch_message, handle_one_message, hm, hsT, hsE]
  · intro ht
    simp [dispatch_message, handle_one_message, ht]

/-- C4 amended witness: an unrecognized binary tag, a JSON message with
no text field, and both decode-failure frames, at concrete inputs. -/
theorem c4_unknown_tag_invalid_format_witness :
    dispatch_message (fun _ => none) UpstreamResult.timeout
        (Frame.binary (some { mtype := some "Voice", text := none }))
        = [ServerMsg.error "Invalid message format"] ∧
    dispatch_message (fun _ => none) UpstreamResult.timeout
        (Frame.jsonText (some { mtype := none, text := none }))
        = [ServerMsg.error "Invalid message format"] :=
  ⟨(c4_unknown_tag_invalid_format (fun _ => none) UpstreamResult.timeout
      { mtype := some "Voice", text := none }).1 (by decide) (by decide),
   (c4_unknown_tag_invalid_format (fun _ => none) UpstreamResult.timeout
      { mtype := none, text := none }).2.1 rfl⟩

/-- Synthesis failures named by the specification: a response with a
non-2xx status, a timeout, or a transport error. -/
def synth_failed : UpstreamResult → Bool
  | UpstreamResult.response status _ => decide (status < 200) || decide (299 < status)
  | UpstreamResult.timeout => true
  | UpstreamResult.transportError => true

/-- Every specification-named synthesis failure makes synthesize_text
return none: a non-2xx status is in particular not 200. -/
theorem synth_failed_none (u : UpstreamResult) (h : synth_failed u = true) :
    synthesize_text u = none := by
  cases u with
  | response status body =>
      have hne : status ≠ 200 := by
        simp [synth_failed] at h
        omega
      simp [synthesize_text, hne]
  | timeout => rfl
  | transportError => rfl

/-- C5: a Text message whose text strips to empty is answered with exactly
one "Empty text provided" error and no Audio; a non-empty text whose
synthesis fails with a non-2xx status, a timeout or a transport error is
answered with exactly one "TTS synthesis failed" error and no Audio; and
the dispatch loop always goes on to the remaining frames afterwards, so
the connection keeps accepting messages. -/
theorem c5_text_message_error_replies (parseWav : List Nat → Option WavData)
    (upstream : UpstreamResult) (data : MsgData) (f : Frame)
    (rest : List (Frame × UpstreamResult)) :
    (stripText (data.text.getD []) = [] →
      handle_text_message parseWav upstream data
        = [ServerMsg.error "Empty text provided"]) ∧
    (stripText (data.text.getD []) ≠ [] → synth_failed upstream = true →
      handle_text_message parseWav upstream data
        = [ServerMsg.error "TTS synthesis failed"]) ∧
    dispatch_loop parseWav ((f, upstream) :: rest)
      = dispatch_message parseWav upstream f ++ dispatch_loop parseWav rest := by
  refine ⟨?_, ?_, rfl⟩
  · intro h
    simp [handle_text_message, h]
  · intro h hf
    simp [handle_text_message, h, synth_failed_none upstream hf]

/-- C5 witness: blank text and an HTTP 500 synthesis outcome, at concrete
inputs. -/
theorem c5_text_message_error_replies_witness :
    handle_text_message (fun _ => none) UpstreamResult.timeout
        { mtype := some "Text", text := some [' ', ' '] }
        = [ServerMsg.error "Empty text provided"] ∧
    handle_text_message (fun _ => none) (UpstreamResult.response 500 [1, 2])
        { mtype := some "Text", text := some ['h', 'i'] }
        = [ServerMsg.error "TTS synthesis failed"] :=
  ⟨(c5_text_message_error_replies (fun _ => none) UpstreamResult.timeout
      { mtype := some "Text", text := some [' ', ' '] } Frame.other []).1 (by decide),
   (c5_text_message_error_replies (fun _ => none) (UpstreamResult.response 500 [1, 2])
      { mtype := some "Text", text := some ['h', 'i'] } Frame.other []).2.1
      (by decide) (by decide)⟩

/-- C6: an exception escaping the handling of one message is converted to
exactly one "Message processing failed" error and the dispatch loop goes
on with the remaining frames — the loop consumes every frame no matter
which handlers raise, ending only with the inbound frame stream itself. -/
theorem c6_exception_stays_local (parseWav : List Nat → Option WavData)
    (pre rest : List (Frame × UpstreamResult)) (f : Frame)
    (u : UpstreamResult) (e : String)
    (h : handle_one_message parseWav u f = Except.error e) :
    dispatch_loop parseWav (pre ++ (f, u) :: rest)
      = dispatch_loop parseWav pre
        ++ [ServerMsg.error "Message processing failed"]
        ++ dispatch_loop parseWav rest := by
  induction pre with
  | nil =>
      simp [dispatch_loop, dispatch_message, h]
  | cons p ps ih =>
      rcases p with ⟨pf, pu⟩
      have hstep : dispatch_loop parseWav (((pf, pu) :: ps) ++ (f, u) :: rest)
          = dispatch_message parseWav pu pf
            ++ dispatch_loop parseWav (ps ++ (f, u) :: rest) := rfl
      rw [hstep, ih]
      simp [dispatch_loop]

/-- C6 witness: a frame whose msgpack decode raises, between two valid
frames, at concrete inputs. -/
theorem c6_exception_stays_local_witness :
    dispatch_loop (fun _ => none)
        [(Frame.other, UpstreamResult.timeout),
         (Frame.binary none, UpstreamResult.timeout),
         (Frame.other, UpstreamResult.timeout)]
      = dispatch_loop (fun _ => none) [(Frame.other, UpstreamResult.timeout)]
        ++ [ServerMsg.error "Message processing failed"]
        ++ dispatch_loop (fun _ => none) [(Frame.other, UpstreamResult.timeout)] :=
  c6_exception_stays_local (fun _ => none)
    [(Frame.other, UpstreamResult.timeout)]
    [(Frame.other, UpstreamResult.timeout)]
    (Frame.binary none) UpstreamResult.timeout "msgpack.unpackb raised" rfl

/-- C7: on L decoded samples the streamer emits exactly ceil of L over
1920 Audio messages, the window sizes sum to L, every window except
possibly the last holds exactly 1920 samples, and every emitted window —
the final shorter one included — is nonempty and holds at most 1920
samples. -/
theorem c7_streamer_chunk_counts (pcm : List ℚ) :
    ((chunksOf 1920 pcm).map ServerMsg.audio).length
        = (pcm.length + 1920 - 1) / 1920 ∧
    ((chunksOf 1920 pcm).map List.length).sum = pcm.length ∧
    ((chunksOf 1920 pcm).dropLast.all (fun c => c.length == 1920)) = true ∧
    ((chunksOf 1920 pcm).all
        (fun c => decide (0 < c.length) && decide (c.length ≤ 1920))) = true := by
  refine ⟨?_, chunksOf_sizes_sum 1920 (by norm_num) pcm, ?_, ?_⟩
  · rw [List.length_map]
    exact chunksOf_count 1920 (by norm_num) pcm
  · rw [List.all_eq_true]
    intro c hc
    have := chunksOf_dropLast_sizes 1920 (by norm_num) pcm c hc
    simp [this]
  · rw [List.all_eq_true]
    intro c hc
    have := chunksOf_mem_sizes 1920 (by norm_num) pcm c hc
    simp [this.1, this.2]

/-- C8: the transcoder passes the container's sample rate through
unchanged, normalizes each sample by dividing by 32768, downmixes a
well-formed multi-channel container by averaging all channels per frame,
and decodes the concrete mono container with raw samples 0, 16384,
-16384, 32767 to the exact values 0, 1/2, -1/2 and 32767/32768. -/
theorem c8_transcoder_normalizes (w : WavData) :
    (wav_bytes_to_pcm_f32 w).2 = w.framerate ∧
    (w.nchannels ≤ 1 →
      (wav_bytes_to_pcm_f32 w).1 = w.samples.map (fun s : Int => (s : ℚ) / 32768)) ∧
    (1 < w.nchannels → w.nchannels ∣ w.samples.length →
      (wav_bytes_to_pcm_f32 w).1
        = (chunksOf w.nchannels w.samples).map
            (fun frame => ((frame.map (fun s : Int => (s : ℚ))).sum
                / (w.nchannels : ℚ)) / 32768)) ∧
    wav_bytes_to_pcm_f32
        { nchannels := 1, sampwidth := 2, framerate := 16000,
          samples := [0, 16384, -16384, 32767] }
      = ([0, 1/2, -1/2, 32767/32768], 16000) := by
  refine ⟨rfl, ?_, ?_, ?_⟩
  · intro h
    have hlt : ¬ 1 < w.nchannels := by omega
    simp [wav_bytes_to_pcm_f32, hlt, List.map_map, Function.comp]
  · intro h _
    show ((if 1 < w.nchannels then
        (chunksOf w.nchannels (w.samples.map (fun s : Int => (s : ℚ)))).map
          (fun frame => frame.sum / (w.nchannels : ℚ))
      else w.samples.map (fun s : Int => (s : ℚ))).map (fun x => x / 32768)) = _
    rw [if_pos h, chunksOf_map, List.map_map, List.map_map]
    rfl
  · norm_num [wav_bytes_to_pcm_f32]

/-- C8 witness: a mono container and a well-formed stereo container, at
concrete inputs. -/
theorem c8_transcoder_normalizes_witness :
    (wav_bytes_to_pcm_f32
        { nchannels := 1, sampwidth := 2, framerate := 8000, samples := [0, 16384] }).1
      = ([0, 16384] : List Int).map (fun s : Int => (s : ℚ) / 32768) ∧
    (wav_bytes_to_pcm_f32
        { nchannels := 2, sampwidth := 2, framerate := 24000, samples := [10, 20, 30, 40] }).1
      = (chunksOf 2 ([10, 20, 30, 40] : List Int)).map
          (fun frame => ((frame.map (fun s : Int => (s : ℚ))).sum
              / ((2 : Nat) : ℚ)) / 32768) :=
  ⟨(c8_transcoder_normalizes
      { nchannels := 1, sampwidth := 2, framerate := 8000,
        samples := [0, 16384] }).2.1 (by decide),
   (c8_transcoder_normalizes
      { nchannels := 2, sampwidth := 2, framerate := 24000,
        samples := [10, 20, 30, 40] }).2.2.1 (by decide) (by decide)⟩

/-- C9: when the returned audio container fails to parse, the streamer
sends nothing at all for that request — no Audio message and no Error
message, the failure is only logged — and the dispatch loop goes on with
the remaining frames, so the connection stays open. -/
theorem c9_transcode_failure_silent (parseWav : List Nat → Option WavData)
    (audio_data : List Nat) (rest : List (Frame × UpstreamResult))
    (h : parseWav audio_data = none) (hne : audio_data ≠ []) :
    stream_audio_chunks parseWav audio_data = [] ∧
    dispatch_loop parseWav
        ((Frame.binary (some { mtype := some "Text", text := some ['h', 'i'] }),
          UpstreamResult.response 200 audio_data) :: rest)
      = dispatch_loop parseWav rest := by
  have hs : stream_audio_chunks parseWav audio_data = [] := by
    simp [stream_audio_chunks, h]
  have htext : stripText ['h', 'i'] = ['h', 'i'] := by decide
  have hh : handle_text_message parseWav (UpstreamResult.response 200 audio_data)
      { mtype := some "Text", text := some ['h', 'i'] } = [] := by
    simp [handle_text_message, htext, synthesize_text, hne, hs]
  refine ⟨hs, ?_⟩
  simp [dispatch_loop, dispatch_message, handle_one_message, hh]

/-- C9 witness: a one-byte body whose parse fails, at concrete inputs. -/
theorem c9_transcode_failure_silent_witness :
    stream_audio_chunks (fun _ => none) [7] = [] ∧
    dispatch_loop (fun _ => none)
        [(Frame.binary (some { mtype := some "Text", text := some ['h', 'i'] }),
          UpstreamResult.response 200 [7])]
      = dispatch_loop (fun _ => none) [] :=
  c9_transcode_failure_silent (fun _ => none) [7] [] rfl (by decide)

/-- C10: a decoded message with no "text" field is handled with the
empty-string default — the handler strips the default, finds it empty,
and replies "Empty text provided", never "Invalid message format"; in
particular a binary Text message lacking the field gets that reply from
the dispatcher. -/
theorem c10_missing_text_defaults_empty (parseWav : List Nat → Option WavData)
    (upstream : UpstreamResult) (data : MsgData) (h : data.text = none) :
    handle_text_message parseWav upstream data
        = [ServerMsg.error "Empty text provided"] ∧
    (data.mtype = some "Text" →
      dispatch_message parseWav upstream (Frame.binary (some data))
          = [ServerMsg.error "Empty text provided"]) ∧
    handle_text_message parseWav upstream data
        ≠ [ServerMsg.error "Invalid message format"] := by
  have h1 : handle_text_message parseWav upstream data
      = [ServerMsg.error "Empty text provided"] := by
    simp [handle_text_message, h, stripText]
  refine ⟨h1, ?_, ?_⟩
  · intro hm
    simp [dispatch_message, handle_one_message, hm, h1]
  · rw [h1]
    decide

/-- C10 witness: a binary Text message with no text field, at concrete
inputs. -/
theorem c10_missing_text_defaults_empty_witness :
    handle_text_message (fun _ => none) UpstreamResult.timeout
        { mtype := some "Text", text := none }
        = [ServerMsg.error "Empty text provided"] ∧
    dispatch_message (fun _ => none) UpstreamResult.timeout
        (Frame.binary (some { mtype := some "Text", text := none }))
        = [ServerMsg.error "Empty text provided"] :=
  ⟨(c10_missing_text_defaults_empty (fun _ => none) UpstreamResult.timeout
      { mtype := some "Text", text := none } rfl).1,
   (c10_missing_text_defaults_empty (fun _ => none) UpstreamResult.timeout
      { mtype := some "Text", text := none } rfl).2.1 rfl⟩

end TTSGroqBridge
